import Mathlib

/-
  Verification development for the rust_chip8 CHIP-8 simulator (src/src/main.rs).

  Shallow embedding conventions:
  - Machine integers are Nat. The u8 casts and wrapping operations of the
    source are written out explicitly as `% 256`; the u16 casts as `% 65536`.
  - The fixed Rust arrays (`memory: [u8; 4000]`, `stack: [usize; 12]`,
    `registers: [u8; 16]`, `video_buffer: [u8; 64 * 32]`) are modelled as
    functions Nat -> Nat together with capacity constants. Rust indexing
    panics when out of bounds, so memory and stack accesses go through
    checked read/write helpers returning Option: `none` models a panic.
    Register and video-buffer indices produced by the decoder are a nibble
    (less than 16) respectively reduced `% 2048` in the source itself, so
    those accesses are written unchecked.
  - `rng.gen()` in opcode_cxnn is modelled by threading the drawn byte as
    an explicit `rnd` argument through exec_opcode.
  - The usize decrement `self.sp -= 1` underflows when sp = 0, a panic in
    debug builds; it is modelled as `none` in opcode_00ee.
-/

def MEM_SIZE : Nat := 4000

def STACK_SIZE : Nat := 12

inductive EmulationStatus
  | Running
  | WaitingForKey
deriving DecidableEq

structure Chip8 where
  status : EmulationStatus
  pc : Nat
  sp : Nat
  memory : Nat → Nat
  registers : Nat → Nat
  address_reg : Nat
  stack : Nat → Nat
  delay_timer : Nat
  sound_timer : Nat
  input : Nat
  video_buffer : Nat → Nat
  redraw : Bool

/-- Pointwise update of an array modelled as a function. -/
def upd (f : Nat → Nat) (i v : Nat) : Nat → Nat :=
  fun j => if j = i then v else f j

/-- Checked read of `self.memory[i]`; `none` models the Rust bounds panic. -/
def readMem (m : Nat → Nat) (i : Nat) : Option Nat :=
  if i < MEM_SIZE then some (m i) else none

/-- Checked write of `self.memory[i] = v`. -/
def writeMem (m : Nat → Nat) (i v : Nat) : Option (Nat → Nat) :=
  if i < MEM_SIZE then some (upd m i v) else none

/-- Checked read of `self.stack[i]`. -/
def readStack (st : Nat → Nat) (i : Nat) : Option Nat :=
  if i < STACK_SIZE then some (st i) else none

/-- Checked write of `self.stack[i] = v`. -/
def writeStack (st : Nat → Nat) (i v : Nat) : Option (Nat → Nat) :=
  if i < STACK_SIZE then some (upd st i v) else none

/-- The instruction word `((high_byte as u16) << 8) | low_byte as u16`. -/
def opcodeWord (high_byte low_byte : Nat) : Nat :=
  (high_byte <<< 8) ||| low_byte

/-- First nibble `(opcode & 0xF000) >> 12`. -/
def nib1 (opcode : Nat) : Nat := (opcode &&& 0xF000) >>> 12

/-- Second nibble `(opcode & 0x0F00) >> 8`. -/
def nib2 (opcode : Nat) : Nat := (opcode &&& 0x0F00) >>> 8

/-- Third nibble `(opcode & 0x00F0) >> 4`. -/
def nib3 (opcode : Nat) : Nat := (opcode &&& 0x00F0) >>> 4

/-- Fourth nibble `opcode & 0x000F`. -/
def nib4 (opcode : Nat) : Nat := opcode &&& 0x000F

/-
  Each opcode handler mirrors one `fn opcode_.. -> usize` method of the
  source: it takes the decoded operands, mutates a copy of the state, and
  returns the next program-counter value; exec_with then assigns it to pc.
-/

/-- 00E0, clear screen. -/
def opcode_00e0 (s : Chip8) : Option (Chip8 × Nat) :=
  some ({ s with video_buffer := fun _ => 0, redraw := true }, s.pc + 2)

/-- 00EE, return: read stack[sp] (cast `as u16`, hence % 65536), decrement sp. -/
def opcode_00ee (s : Chip8) : Option (Chip8 × Nat) := do
  let pcv ← readStack s.stack s.sp
  if s.sp = 0 then none
  else some ({ s with sp := s.sp - 1 }, pcv % 65536)

/-- 1NNN, jump to nnn. -/
def opcode_1nnn (s : Chip8) (nnn : Nat) : Option (Chip8 × Nat) :=
  some (s, nnn)

/-- 2NNN, call: increment sp first, store pc+2 at stack[sp], jump to nnn. -/
def opcode_2nnn (s : Chip8) (nnn : Nat) : Option (Chip8 × Nat) := do
  let st ← writeStack s.stack (s.sp + 1) (s.pc + 2)
  some ({ s with sp := s.sp + 1, stack := st }, nnn)

/-- 3XNN, skip if Vx == NN (`nn as u8`). -/
def opcode_3xnn (s : Chip8) (x nn : Nat) : Option (Chip8 × Nat) :=
  some (s, if s.registers x = nn % 256 then s.pc + 4 else s.pc + 2)

/-- 4XNN, skip if Vx != NN. -/
def opcode_4xnn (s : Chip8) (x nn : Nat) : Option (Chip8 × Nat) :=
  some (s, if s.registers x ≠ nn % 256 then s.pc + 4 else s.pc + 2)

/-- 5XY0 (matched as 5XY* in the source), skip if Vx == Vy. -/
def opcode_5xnn (s : Chip8) (x y : Nat) : Option (Chip8 × Nat) :=
  some (s, if s.registers x = s.registers y then s.pc + 4 else s.pc + 2)

/-- 6XNN, Vx = NN. -/
def opcode_6xnn (s : Chip8) (x nn : Nat) : Option (Chip8 × Nat) :=
  some ({ s with registers := upd s.registers x (nn % 256) }, s.pc + 2)

/-- 7XNN, Vx += NN wrapping, overflow flag discarded. -/
def opcode_7xnn (s : Chip8) (x nn : Nat) : Option (Chip8 × Nat) :=
  some ({ s with registers := upd s.registers x ((s.registers x + nn % 256) % 256) },
    s.pc + 2)

/-- 8XY0, Vx = Vy. -/
def opcode_8xy0 (s : Chip8) (x y : Nat) : Option (Chip8 × Nat) :=
  some ({ s with registers := upd s.registers x (s.registers y) }, s.pc + 2)

/-- 8XY1, Vx |= Vy. -/
def opcode_8xy1 (s : Chip8) (x y : Nat) : Option (Chip8 × Nat) :=
  some ({ s with registers := upd s.registers x (s.registers x ||| s.registers y) },
    s.pc + 2)

/-- 8XY2, Vx &= Vy. -/
def opcode_8xy2 (s : Chip8) (x y : Nat) : Option (Chip8 × Nat) :=
  some ({ s with registers := upd s.registers x (s.registers x &&& s.registers y) },
    s.pc + 2)

/-- 8XY3, Vx ^= Vy. -/
def opcode_8xy3 (s : Chip8) (x y : Nat) : Option (Chip8 × Nat) :=
  some ({ s with registers := upd s.registers x (s.registers x ^^^ s.registers y) },
    s.pc + 2)

/-- 8XY4, Vx += Vy with carry: the source sets VF = 1 only on overflow and
leaves VF untouched otherwise, then stores the wrapping sum. -/
def opcode_8xy4 (s : Chip8) (x y : Nat) : Option (Chip8 × Nat) :=
  let a := s.registers x
  let b := s.registers y
  let sum := (a + b) % 256
  let r1 := if 256 ≤ a + b then upd s.registers 0xF 1 else s.registers
  some ({ s with registers := upd r1 x sum }, s.pc + 2)

/-- 8XY5, Vx -= Vy: VF = 0 on borrow, VF = 1 otherwise, wrapping difference.
For byte values `overflowing_sub` returns `((a + 256 - b) % 256, a < b)`. -/
def opcode_8xy5 (s : Chip8) (x y : Nat) : Option (Chip8 × Nat) :=
  let a := s.registers x
  let b := s.registers y
  let difference := (a + 256 - b) % 256
  let r1 := if a < b then upd s.registers 0xF 0 else upd s.registers 0xF 1
  some ({ s with registers := upd r1 x difference }, s.pc + 2)

/-- 8XY6, VF = Vx & 1 then Vx >>= 1 (the shift reads the register after the
flag write, which matters when x = 0xF). -/
def opcode_8xy6 (s : Chip8) (x : Nat) : Option (Chip8 × Nat) :=
  let r1 := upd s.registers 0xF (s.registers x &&& 0x01)
  some ({ s with registers := upd r1 x (r1 x >>> 1) }, s.pc + 2)

/-- 8XY7: the source computes `registers[x].overflowing_sub(registers[y])`,
i.e. Vx - Vy, sets VF = 1 only on borrow, and stores the difference in Vx. -/
def opcode_8xy7 (s : Chip8) (x y : Nat) : Option (Chip8 × Nat) :=
  let a := s.registers x
  let b := s.registers y
  let difference := (a + 256 - b) % 256
  let r1 := if a < b then upd s.registers 0xF 1 else s.registers
  some ({ s with registers := upd r1 x difference }, s.pc + 2)

/-- 8XYE, VF = Vx & 0x80 (not normalized) then Vx <<= 1 truncating to u8. -/
def opcode_8xye (s : Chip8) (x : Nat) : Option (Chip8 × Nat) :=
  let r1 := upd s.registers 0xF (s.registers x &&& 0x80)
  some ({ s with registers := upd r1 x ((r1 x <<< 1) % 256) }, s.pc + 2)

/-- 9XY0 (matched as 9XY* in the source), skip if Vx != Vy. -/
def opcode_9xy0 (s : Chip8) (x y : Nat) : Option (Chip8 × Nat) :=
  some (s, if s.registers x ≠ s.registers y then s.pc + 4 else s.pc + 2)

/-- ANNN, address_reg = nnn (cast `as u16`). -/
def opcode_annn (s : Chip8) (nnn : Nat) : Option (Chip8 × Nat) :=
  some ({ s with address_reg := nnn % 65536 }, s.pc + 2)

/-- BNNN, pc = V0 + nnn. -/
def opcode_bnnn (s : Chip8) (nnn : Nat) : Option (Chip8 × Nat) :=
  some (s, s.registers 0 + nnn)

/-- CXNN, Vx = nn & random byte; the drawn byte is the explicit `rnd` argument. -/
def opcode_cxnn (s : Chip8) (rnd x nn : Nat) : Option (Chip8 × Nat) :=
  some ({ s with registers := upd s.registers x ((nn &&& (rnd % 256)) % 256) },
    s.pc + 2)

/-- One iteration of the inner `for bit in 0..8` loop of opcode_dxyn:
VF |= video_buffer[(video_addr + bit) % 2048] & color, then the pixel is
XORed, exactly in the order of the source statements. -/
def dxyn_bit (s : Chip8) (video_addr sprite bit : Nat) : Chip8 :=
  let color := (sprite >>> (7 - bit)) &&& 0x1
  let idx := (video_addr + bit) % 2048
  let vf := s.registers 0xF ||| (s.video_buffer idx &&& color)
  let s1 := { s with registers := upd s.registers 0xF vf }
  { s1 with video_buffer := upd s1.video_buffer idx (s1.video_buffer idx ^^^ color) }

/-- Bits 0..k of one sprite row, in increasing bit order. -/
def dxyn_bits (s : Chip8) (video_addr sprite : Nat) : Nat → Chip8
  | 0 => s
  | b + 1 => dxyn_bit (dxyn_bits s video_addr sprite b) video_addr sprite b

/-- One iteration of the outer `for row in 0..n` loop of opcode_dxyn:
coordinates are re-read from the registers at the top of each row, the
sprite byte is memory[address_reg + row] (a checked access). -/
def dxyn_row (s : Chip8) (x y row : Nat) : Option Chip8 := do
  let x_coord := s.registers x
  let y_coord := s.registers y
  let video_addr := (y_coord + row) * 64 + x_coord
  let sprite ← readMem s.memory (s.address_reg + row)
  some (dxyn_bits s video_addr sprite 8)

/-- Rows 0..k of the draw loop, in increasing row order. -/
def dxyn_rows (s : Chip8) (x y : Nat) : Nat → Option Chip8
  | 0 => some s
  | r + 1 => do
      let s0 ← dxyn_rows s x y r
      dxyn_row s0 x y r

/-- DXYN, draw: VF is reset to 0 before the loop, then n sprite rows are
XORed into the video buffer and redraw is set. -/
def opcode_dxyn (s : Chip8) (x y n : Nat) : Option (Chip8 × Nat) := do
  let s0 := { s with registers := upd s.registers 0xF 0 }
  let s1 ← dxyn_rows s0 x y n
  some ({ s1 with redraw := true }, s.pc + 2)

/-- EX9E, skip if Vx == input. -/
def opcode_ex9e (s : Chip8) (x : Nat) : Option (Chip8 × Nat) :=
  some (s, if s.registers x = s.input then s.pc + 4 else s.pc + 2)

/-- EXA1, skip if Vx != input. -/
def opcode_exa1 (s : Chip8) (x : Nat) : Option (Chip8 × Nat) :=
  some (s, if s.registers x ≠ s.input then s.pc + 4 else s.pc + 2)

/-- FX07, Vx = delay_timer. -/
def opcode_fx07 (s : Chip8) (x : Nat) : Option (Chip8 × Nat) :=
  some ({ s with registers := upd s.registers x s.delay_timer }, s.pc + 2)

/-- FX0A: the source copies the current input into Vx and continues; it
does not change status and does not wait. -/
def opcode_fx0a (s : Chip8) (x : Nat) : Option (Chip8 × Nat) :=
  some ({ s with registers := upd s.registers x s.input }, s.pc + 2)

/-- FX15: the source assigns `self.delay_timer = x as u8`, the register
index, not the register value. -/
def opcode_fx15 (s : Chip8) (x : Nat) : Option (Chip8 × Nat) :=
  some ({ s with delay_timer := x % 256 }, s.pc + 2)

/-- FX18: the source assigns `self.sound_timer = x as u8`, the register
index, not the register value. -/
def opcode_fx18 (s : Chip8) (x : Nat) : Option (Chip8 × Nat) :=
  some ({ s with sound_timer := x % 256 }, s.pc + 2)

/-- FX1E, address_reg += x (again the index; u16 wrapping arithmetic). -/
def opcode_fx1e (s : Chip8) (x : Nat) : Option (Chip8 × Nat) :=
  some ({ s with address_reg := (s.address_reg + x % 65536) % 65536 }, s.pc + 2)

/-- FX29: the source assigns `self.address_reg = self.memory[x * 5] as u16`,
reading a font byte at index x*5 (register index, not value) into I. -/
def opcode_fx29 (s : Chip8) (x : Nat) : Option (Chip8 × Nat) := do
  let b ← readMem s.memory (x * 5)
  some ({ s with address_reg := b % 65536 }, s.pc + 2)

/-- FX33, BCD of Vx into memory[I], memory[I+1], memory[I+2]. -/
def opcode_fx33 (s : Chip8) (x : Nat) : Option (Chip8 × Nat) := do
  let m1 ← writeMem s.memory s.address_reg (s.registers x / 100)
  let m2 ← writeMem m1 (s.address_reg + 1) (s.registers x % 100 / 10)
  let m3 ← writeMem m2 (s.address_reg + 2) (s.registers x % 10)
  some ({ s with memory := m3 }, s.pc + 2)

/-- The `for i in 0..x + 1` loop of opcode_fx55: registers 0..k-1 stored at
memory[base..base+k-1], in increasing order. -/
def fx55_store (mem regs : Nat → Nat) (base : Nat) : Nat → Option (Nat → Nat)
  | 0 => some mem
  | k + 1 => do
      let m ← fx55_store mem regs base k
      writeMem m (base + k) (regs k)

/-- FX55, dump V0..Vx into memory starting at I. -/
def opcode_fx55 (s : Chip8) (x : Nat) : Option (Chip8 × Nat) := do
  let m ← fx55_store s.memory s.registers s.address_reg (x + 1)
  some ({ s with memory := m }, s.pc + 2)

/-- The `for i in 0..x + 1` loop of opcode_fx65. -/
def fx65_load (regs mem : Nat → Nat) (base : Nat) : Nat → Option (Nat → Nat)
  | 0 => some regs
  | k + 1 => do
      let r ← fx65_load regs mem base k
      let v ← readMem mem (base + k)
      some (upd r k v)

/-- FX65, load V0..Vx from memory starting at I. -/
def opcode_fx65 (s : Chip8) (x : Nat) : Option (Chip8 × Nat) := do
  let r ← fx65_load s.registers s.memory s.address_reg (x + 1)
  some ({ s with registers := r }, s.pc + 2)

/-- The `self.pc = match nibbles { ... }` block of exec_opcode, arm for
arm with the same arm order and the same catch-all
`_ => self.pc  // Do Nothing`; the flat tuple match of the source is
factored by first nibble (the groups are disjoint, so the meaning is
unchanged). The operands are n1..n4 for the four nibbles, with x = n2,
y = n3 and n = n4 exactly as the source binds them. -/
def dispatch (s : Chip8) (rnd n1 n2 n3 n4 nnn nn : Nat) : Option (Chip8 × Nat) :=
  match n1 with
  | 0x0 =>
    (match n2, n3, n4 with
      | 0x0, 0xE, 0x0 => opcode_00e0 s
      | 0x0, 0xE, 0xE => opcode_00ee s
      | _, _, _ => some (s, s.pc))
  | 0x1 => opcode_1nnn s nnn
  | 0x2 => opcode_2nnn s nnn
  | 0x3 => opcode_3xnn s n2 nn
  | 0x4 => opcode_4xnn s n2 nn
  | 0x5 => opcode_5xnn s n2 n3
  | 0x6 => opcode_6xnn s n2 nn
  | 0x7 => opcode_7xnn s n2 nn
  | 0x8 =>
    (match n4 with
      | 0x0 => opcode_8xy0 s n2 n3
      | 0x1 => opcode_8xy1 s n2 n3
      | 0x2 => opcode_8xy2 s n2 n3
      | 0x3 => opcode_8xy3 s n2 n3
      | 0x4 => opcode_8xy4 s n2 n3
      | 0x5 => opcode_8xy5 s n2 n3
      | 0x6 => opcode_8xy6 s n2
      | 0x7 => opcode_8xy7 s n2 n3
      | 0xE => opcode_8xye s n2
      | _ => some (s, s.pc))
  | 0x9 => opcode_9xy0 s n2 n3
  | 0xA => opcode_annn s nnn
  | 0xB => opcode_bnnn s nnn
  | 0xC => opcode_cxnn s rnd n2 nn
  | 0xD => opcode_dxyn s n2 n3 n4
  | 0xE =>
    (match n3, n4 with
      | 0x9, 0xE => opcode_ex9e s n2
      | 0xA, 0x1 => opcode_exa1 s n2
      | _, _ => some (s, s.pc))
  | 0xF =>
    (match n3, n4 with
      | 0x0, 0x7 => opcode_fx07 s n2
      | 0x0, 0xA => opcode_fx0a s n2
      | 0x1, 0x5 => opcode_fx15 s n2
      | 0x1, 0x8 => opcode_fx18 s n2
      | 0x1, 0xE => opcode_fx1e s n2
      | 0x2, 0x9 => opcode_fx29 s n2
      | 0x3, 0x3 => opcode_fx33 s n2
      | 0x5, 0x5 => opcode_fx55 s n2
      | 0x6, 0x5 => opcode_fx65 s n2
      | _, _ => some (s, s.pc))
  | _ => some (s, s.pc)

/-- Decode an already fetched instruction word into nibbles and the nnn/nn
operand forms, dispatch on it, and assign the returned value to pc:
`self.pc = match nibbles { ... }`. -/
def exec_with (s : Chip8) (rnd high_byte low_byte : Nat) : Option Chip8 :=
  let opcode := opcodeWord high_byte low_byte
  Option.map (fun r => { r.1 with pc := r.2 })
    (dispatch s rnd (nib1 opcode) (nib2 opcode) (nib3 opcode) (nib4 opcode)
      (opcode &&& 0x0FFF) (opcode &&& 0x00FF))

/-- One instruction: fetch the two bytes at pc and pc+1 (checked accesses),
then decode and dispatch. -/
def exec_opcode (rnd : Nat) (s : Chip8) : Option Chip8 := do
  let high_byte ← readMem s.memory s.pc
  let low_byte ← readMem s.memory (s.pc + 1)
  exec_with s rnd high_byte low_byte

/-- `fn tick` simply calls exec_opcode; it never consults `status`. -/
def tick (rnd : Nat) (s : Chip8) : Option Chip8 :=
  exec_opcode rnd s

/-- The 80-byte font table of load_font. -/
def font : List Nat :=
  [0xF0, 0x90, 0x90, 0x90, 0xF0,
   0x20, 0x60, 0x20, 0x20, 0x70,
   0xF0, 0x10, 0xF0, 0x80, 0xF0,
   0xF0, 0x10, 0xF0, 0x10, 0xF0,
   0x90, 0x90, 0xF0, 0x10, 0x10,
   0xF0, 0x80, 0xF0, 0x10, 0xF0,
   0xF0, 0x80, 0xF0, 0x90, 0xF0,
   0xF0, 0x10, 0x20, 0x40, 0x40,
   0xF0, 0x90, 0xF0, 0x90, 0xF0,
   0xF0, 0x90, 0xF0, 0x10, 0xF0,
   0xF0, 0x90, 0xF0, 0x90, 0x90,
   0xE0, 0x90, 0xE0, 0x90, 0xE0,
   0xF0, 0x80, 0x80, 0x80, 0xF0,
   0xE0, 0x90, 0x90, 0x90, 0xE0,
   0xF0, 0x80, 0xF0, 0x80, 0xF0,
   0xF0, 0x80, 0xF0, 0x80, 0x80]

/-- The `for i in 0..80` copy loop of load_font. -/
def load_font_mem (mem : Nat → Nat) : Nat → (Nat → Nat)
  | 0 => mem
  | k + 1 => upd (load_font_mem mem k) k (font.getD k 0)

/-- load_font copies the 80 font bytes to addresses 0..79. -/
def load_font (s : Chip8) : Chip8 :=
  { s with memory := load_font_mem s.memory 80 }

/-- The Chip8 value constructed in main: everything zeroed, pc at 0x200,
status Running. -/
def initChip8 : Chip8 :=
  { status := EmulationStatus.Running
    pc := 0x200
    sp := 0
    memory := fun _ => 0
    registers := fun _ => 0
    address_reg := 0
    stack := fun _ => 0
    delay_timer := 0
    sound_timer := 0
    input := 0
    video_buffer := fun _ => 0
    redraw := false }

/-- The key code main stores in `cpu.input` when no mapped key is held
(the final else branch), which is also the code of machine key 0 (key X). -/
def no_key_code : Nat := 0

/-- Boolean transcription of which nibble patterns are matched by a
non-default arm of the dispatch match, pattern by pattern. -/
def isKnownOpcode (n1 n2 n3 n4 : Nat) : Bool :=
  (n1 == 0x0 && n2 == 0x0 && n3 == 0xE && n4 == 0x0) ||
  (n1 == 0x0 && n2 == 0x0 && n3 == 0xE && n4 == 0xE) ||
  (n1 == 0x1) || (n1 == 0x2) || (n1 == 0x3) || (n1 == 0x4) ||
  (n1 == 0x5) || (n1 == 0x6) || (n1 == 0x7) ||
  (n1 == 0x8 &&
    (n4 == 0x0 || n4 == 0x1 || n4 == 0x2 || n4 == 0x3 ||
     n4 == 0x4 || n4 == 0x5 || n4 == 0x6 || n4 == 0x7 ||
     n4 == 0xE)) ||
  (n1 == 0x9) || (n1 == 0xA) || (n1 == 0xB) || (n1 == 0xC) ||
  (n1 == 0xD) ||
  (n1 == 0xE && n3 == 0x9 && n4 == 0xE) ||
  (n1 == 0xE && n3 == 0xA && n4 == 0x1) ||
  (n1 == 0xF && n3 == 0x0 && n4 == 0x7) ||
  (n1 == 0xF && n3 == 0x0 && n4 == 0xA) ||
  (n1 == 0xF && n3 == 0x1 && n4 == 0x5) ||
  (n1 == 0xF && n3 == 0x1 && n4 == 0x8) ||
  (n1 == 0xF && n3 == 0x1 && n4 == 0xE) ||
  (n1 == 0xF && n3 == 0x2 && n4 == 0x9) ||
  (n1 == 0xF && n3 == 0x3 && n4 == 0x3) ||
  (n1 == 0xF && n3 == 0x5 && n4 == 0x5) ||
  (n1 == 0xF && n3 == 0x6 && n4 == 0x5)

/-
  Concrete machine states used to evaluate the embedded code on specific
  inputs. Each one is the zeroed state of main with an instruction (and,
  where needed, registers or sprite data) placed at the program entry.
-/

/-- V0 = 60, sprite byte 0xFF at 0x300, instruction D011 at 0x200:
draw a one-row sprite at x = 60, y = 0. -/
def c1state : Chip8 :=
  { initChip8 with
    registers := upd initChip8.registers 0 60
    memory := upd (upd (upd initChip8.memory 0x200 0xD0) 0x201 0x11) 0x300 0xFF
    address_reg := 0x300 }

/-- V0 = 1, V1 = 2, VF = 1 (stale flag), instruction 8014 at 0x200:
add-with-carry on a non-overflowing pair. -/
def c2state : Chip8 :=
  { initChip8 with
    registers := upd (upd (upd initChip8.registers 0 1) 1 2) 0xF 1
    memory := upd (upd initChip8.memory 0x200 0x80) 0x201 0x14 }

/-- Instruction F00A (block until key, store in V0) at 0x200 while no key
is held (input = 0). -/
def c4state : Chip8 :=
  { initChip8 with memory := upd (upd initChip8.memory 0x200 0xF0) 0x201 0x0A }

/-- The same state already in WaitingForKey status. -/
def c4waiting : Chip8 :=
  { c4state with status := EmulationStatus.WaitingForKey }

/-- Font loaded, V0 = 1, instruction F029 at 0x200. -/
def c5state : Chip8 :=
  { load_font initChip8 with
    registers := upd initChip8.registers 0 1
    memory := upd (upd (load_font initChip8).memory 0x200 0xF0) 0x201 0x29 }

/-- V5 = 77, instruction F515 (set delay timer from V5) at 0x200. -/
def c6state : Chip8 :=
  { initChip8 with
    registers := upd initChip8.registers 5 77
    memory := upd (upd initChip8.memory 0x200 0xF5) 0x201 0x15 }

/-- V5 = 77, instruction F518 (set sound timer from V5) at 0x200. -/
def c6sound : Chip8 :=
  { c6state with memory := upd (upd initChip8.memory 0x200 0xF5) 0x201 0x18 }

/-- V0 = 5, V1 = 3, VF = 1, instruction 8017 (reverse-subtract) at 0x200. -/
def c7state : Chip8 :=
  { initChip8 with
    registers := upd (upd (upd initChip8.registers 0 5) 1 3) 0xF 1
    memory := upd (upd initChip8.memory 0x200 0x80) 0x201 0x17 }

/-- Instruction AFFF (address_reg = 0xFFF) at 0x200 followed by F033
(BCD store at address_reg) at 0x202. -/
def c9start : Chip8 :=
  { initChip8 with
    memory := upd (upd (upd (upd initChip8.memory 0x200 0xAF) 0x201 0xFF) 0x202 0xF0) 0x203 0x33 }

/-- The state reached from c9start after the ANNN instruction. -/
def c9mid : Chip8 :=
  { c9start with address_reg := 0xFFF, pc := 0x202 }

set_option maxHeartbeats 1600000 in
theorem dispatch_unknown (s : Chip8) (rnd n1 n2 n3 n4 nnn nn : Nat)
    (hunk : isKnownOpcode n1 n2 n3 n4 = false) :
    dispatch s rnd n1 n2 n3 n4 nnn nn = some (s, s.pc) := by
  unfold dispatch
  split
  all_goals try split
  all_goals try rfl
  all_goals (exfalso; simp_all [isKnownOpcode])

/-- Claim C1, behavior of the code at the failing input: drawing the
one-row sprite 0xFF at x = 60, y = 0, the code sets the pixel at linear
index 64 (row 1, column 0) and leaves the pixel at index 0 (row 0,
column 0) unset, because the draw loop wraps the linear index modulo 2048
instead of wrapping the column modulo 64 within the row; VF stays 0 (no
collision on a blank screen) and redraw is set. The claim instead
requires the bit at column 64 to wrap to row 0, column 0. -/
theorem c1_dxyn_spills_into_next_row :
    (exec_opcode 0 c1state).map
      (fun t => (t.video_buffer 64, t.video_buffer 0, t.video_buffer 60,
        t.registers 0xF, t.redraw)) = some (1, 0, 1, 0, true) := by decide

/-- Claim C2, behavior of the code at the failing input: with V0 = 1,
V1 = 2 and a stale VF = 1, the non-overflowing addition 8014 stores 3 in
V0 but leaves VF = 1, while the claim requires VF to be explicitly set
to 0 on non-overflow. -/
theorem c2_8xy4_keeps_stale_carry :
    (exec_opcode 0 c2state).map (fun t => (t.registers 0, t.registers 0xF)) =
      some (3, 1) := by decide

/-- Claim C3, counterexample: the all-zero instruction word 0x0000 matches
no opcode pattern, and executing it returns the state unchanged; in
particular the program counter stays at 0x200 and is not advanced by 2 as
the claim states. -/
theorem c3_unknown_opcode_freezes_pc :
    exec_opcode 0 initChip8 = some initChip8 ∧
    ¬ (exec_opcode 0 initChip8).map (fun t => t.pc) = some (initChip8.pc + 2) :=
  ⟨rfl, by decide⟩

/-- Claim C3 as amended: for every machine state whose current instruction
word matches no known opcode pattern, executing one step is a no-op on the
whole machine state, the program counter included: it is left unchanged
rather than advanced by 2, and the unknown pattern is not treated as an
error. -/
theorem c3_unknown_opcode_noop (rnd : Nat) (s : Chip8) (hb lb : Nat)
    (hhb : readMem s.memory s.pc = some hb)
    (hlb : readMem s.memory (s.pc + 1) = some lb)
    (hunk : isKnownOpcode (nib1 (opcodeWord hb lb)) (nib2 (opcodeWord hb lb))
      (nib3 (opcodeWord hb lb)) (nib4 (opcodeWord hb lb)) = false) :
    exec_opcode rnd s = some s := by
  have hmain : exec_with s rnd hb lb = some s := by
    simp only [exec_with]
    rw [dispatch_unknown s rnd _ _ _ _ _ _ hunk]
    rfl
  simp only [exec_opcode]
  rw [hhb, hlb]
  simpa using hmain

/-- Claim C3 witness: the amended no-op theorem applied to the concrete
all-zero state. -/
theorem c3_noop_witness : exec_opcode 0 initChip8 = some initChip8 :=
  c3_unknown_opcode_noop 0 initChip8 0 0 (by decide) (by decide) (by decide)

/-- Claim C4, behavior of the code at the failing input: executing F00A
with no key held copies key code 0 into V0, advances pc to 0x202 and
leaves the status Running instead of entering WaitingForKey; and tick
never consults the status, so a state already in WaitingForKey executes
the instruction all the same instead of being a no-op. -/
theorem c4_fx0a_does_not_block :
    (tick 0 c4state).map (fun t => (t.pc, t.registers 0)) = some (0x202, 0) ∧
    (tick 0 c4state).map (fun t => t.status) = some EmulationStatus.Running ∧
    (tick 0 c4waiting).map (fun t => t.pc) = some 0x202 := by decide

/-- Claim C5, behavior of the code at the failing input: with the font
loaded and V0 = 1, executing F029 sets address_reg to memory[0 * 5] =
0xF0 = 240, the first byte of glyph 0, instead of the glyph location
(low nibble of V0) * 5 = 5 required by the claim; the 5 bytes at the
expected location 5 do hold glyph 1. -/
theorem c5_fx29_loads_font_byte_not_location :
    (exec_opcode 0 c5state).map (fun t => t.address_reg) = some 240 ∧
    c5state.registers 0 = 1 ∧
    (c5state.memory 5, c5state.memory 6, c5state.memory 7, c5state.memory 8,
      c5state.memory 9) = (0x20, 0x60, 0x20, 0x20, 0x70) ∧
    (240 : Nat) ≠ (1 &&& 0xF) * 5 := by decide

/-- Claim C6, behavior of the code at the failing input: with V5 = 77,
F515 sets the delay timer to the register index 5, not to the register
value 77, and F518 does the same for the sound timer. -/
theorem c6_fx15_fx18_use_register_index :
    (exec_opcode 0 c6state).map (fun t => t.delay_timer) = some 5 ∧
    (exec_opcode 0 c6sound).map (fun t => t.sound_timer) = some 5 ∧
    c6state.registers 5 = 77 := by decide

/-- Claim C7, behavior of the code at the failing input: with V0 = 5,
V1 = 3 and VF = 1, executing 8017 stores V0 - V1 = 2 in V0 and leaves
VF = 1, while the claim requires V1 - V0 = 254 wrapping and VF = 0
(borrow, since V1 < V0). -/
theorem c7_8xy7_subtracts_wrong_direction :
    (exec_opcode 0 c7state).map (fun t => (t.registers 0, t.registers 0xF)) =
      some (2, 1) ∧
    c7state.registers 0 = 5 ∧ c7state.registers 1 = 3 ∧
    ((2 : Nat), (1 : Nat)) ≠ ((3 + 256 - 5) % 256, 0) := by decide

/-- Claim C8: from any state with a non-full stack and a program counter
that fits in 16 bits (every fetchable pc does, the memory being 4000
bytes), Call(nnn) increments the stack pointer, stores pc + 2 in the new
stack slot and jumps to nnn; a Return from the resulting state pops that
slot, restores the stack pointer to its pre-call value and resumes at
pc + 2, exactly 2 bytes past the call site. -/
theorem c8_call_return_roundtrip (s : Chip8) (nnn : Nat)
    (hsp : s.sp + 1 < STACK_SIZE) (hpc : s.pc + 2 < 65536) :
    opcode_2nnn s nnn =
      some ({ s with sp := s.sp + 1, stack := upd s.stack (s.sp + 1) (s.pc + 2) }, nnn) ∧
    opcode_00ee { s with sp := s.sp + 1, stack := upd s.stack (s.sp + 1) (s.pc + 2), pc := nnn } =
      some ({ s with sp := s.sp, stack := upd s.stack (s.sp + 1) (s.pc + 2), pc := nnn }, s.pc + 2) := by
  constructor
  · simp [opcode_2nnn, writeStack, hsp]
  · simp [opcode_00ee, readStack, upd, hsp, Nat.mod_eq_of_lt hpc]

/-- Claim C8 witness: the round-trip at the initial state with nnn = 0x300. -/
theorem c8_roundtrip_witness :
    opcode_2nnn initChip8 0x300 =
      some ({ initChip8 with sp := initChip8.sp + 1, stack := upd initChip8.stack (initChip8.sp + 1) (initChip8.pc + 2) }, 0x300) ∧
    opcode_00ee { initChip8 with sp := initChip8.sp + 1, stack := upd initChip8.stack (initChip8.sp + 1) (initChip8.pc + 2), pc := 0x300 } =
      some ({ initChip8 with sp := initChip8.sp, stack := upd initChip8.stack (initChip8.sp + 1) (initChip8.pc + 2), pc := 0x300 }, initChip8.pc + 2) :=
  c8_call_return_roundtrip initChip8 0x300 (by decide) (by decide)

/-- Claim C9, counterexample: ANNN can set address_reg to 0xFFF = 4095,
beyond the 4000-byte memory, and the following F033 then indexes memory
out of bounds (modelled as none, a panic in the Rust source), so not
every memory access is bounds-checked or reduced modulo the capacity. -/
theorem c9_memory_access_escapes_bounds :
    exec_opcode 0 c9start = some c9mid ∧ exec_opcode 0 c9mid = none :=
  ⟨rfl, rfl⟩

/-- Claim C9 as amended: memory accesses are raw indexing with no
wraparound; the BCD store succeeds exactly when address_reg + 2 stays
below the 4000-byte capacity, and fails (panics) otherwise, and
address_reg values up to 4095 are reachable via ANNN. -/
theorem c9_fx33_in_bounds_iff (s : Chip8) (x : Nat) :
    (opcode_fx33 s x).isSome = true ↔ s.address_reg + 2 < MEM_SIZE := by
  simp only [opcode_fx33, writeMem]
  split
  · simp only [Option.bind_eq_bind', Option.some_bind']
    split
    · simp only [Option.bind_eq_bind', Option.some_bind']
      split
      · simp_all
      · simp_all
    · simp_all
      omega
  · simp_all
    omega

/-- Claim C9 witness: the BCD bound characterization applied at the
initial state, where address_reg = 0 is in bounds. -/
theorem c9_fx33_bounds_witness : (opcode_fx33 initChip8 0).isSome = true :=
  (c9_fx33_in_bounds_iff initChip8 0).mpr (by decide)

/-- Claim C10: when no key is held, input holds key code 0, the same value
as machine key 0, so with Vx = 0 the skip-if-key EX9E takes the skip
branch (pc + 4), the skip-if-not-key EXA1 does not skip (pc + 2), and
F00A resolves immediately, storing key code 0 into Vx. -/
theorem c10_no_key_is_key_zero (s : Chip8) (x : Nat)
    (hin : s.input = no_key_code) (hx : s.registers x = 0) :
    opcode_ex9e s x = some (s, s.pc + 4) ∧
    opcode_exa1 s x = some (s, s.pc + 2) ∧
    opcode_fx0a s x = some ({ s with registers := upd s.registers x no_key_code }, s.pc + 2) := by
  refine ⟨?_, ?_, ?_⟩ <;> simp [opcode_ex9e, opcode_exa1, opcode_fx0a, hin, hx, no_key_code]

/-- Claim C10 witness: the no-key facts at the initial state with x = 0. -/
theorem c10_no_key_witness :
    opcode_ex9e initChip8 0 = some (initChip8, initChip8.pc + 4) ∧
    opcode_exa1 initChip8 0 = some (initChip8, initChip8.pc + 2) ∧
    opcode_fx0a initChip8 0 = some ({ initChip8 with registers := upd initChip8.registers 0 no_key_code }, initChip8.pc + 2) :=
  c10_no_key_is_key_zero initChip8 0 rfl rfl
